import Mathlib

/-!
Verification of the feature-encoding and inference core of the
water-quality-prediction app (`src/app.py`).

The core of the program is the block at `app.py` lines 100-113:

```python
if not station_id:
    st.warning('...')
else:
    input_df = pd.DataFrame({'year': [year_input], 'id':[station_id]})
    input_encoded = pd.get_dummies(input_df, columns=['id'])
    for col in model_cols:
        if col not in input_encoded.columns:
            input_encoded[col] = 0
    input_encoded = input_encoded[model_cols]
    predicted_pollutants = model.predict(input_encoded)[0]
```

We embed the one-row data frame as an association list from column name
to integer cell value, in column order, and embed each pandas operation
used by the source as a function on that representation.
-/

namespace WaterQuality

/-- A one-row data frame: columns in order, each carrying its single cell
value. Mirrors the `pd.DataFrame({...})` objects of `app.py`, which only
ever hold one row. -/
abbrev Row := List (String × Int)

/-- The one-row frame built at `app.py` line 104:
`pd.DataFrame({'year': [year_input], 'id': [station_id]})`. -/
structure InputDF where
  year : Int
  id : String

/-- `pd.get_dummies(input_df, columns=['id'])` at `app.py` line 105, applied
to a one-row frame whose columns are `year` and `id`: the categorical
column `id` is replaced by a single indicator column named
`"id_" ++ station_id` holding 1 (true), and the numeric column `year` is
kept, ahead of the dummy columns. -/
def get_dummies (df : InputDF) : Row :=
  [("year", df.year), ("id_" ++ df.id, 1)]

/-- The loop at `app.py` lines 107-109: for each column of `model_cols`,
in order, if the frame has no column of that name, append that column
with value 0. -/
def fillMissing (row : Row) (model_cols : List String) : Row :=
  model_cols.foldl
    (fun r c => if (r.lookup c).isSome then r else r ++ [(c, 0)]) row

/-- Column selection `input_encoded[model_cols]` at `app.py` line 110:
take the columns named by `model_cols`, in that order, with their values;
fails (pandas raises `KeyError`) if any requested column is absent. -/
def selectCols (row : Row) : List String → Option Row
  | [] => some []
  | c :: cs =>
    match row.lookup c with
    | none => none
    | some v => (selectCols row cs).map (fun rest => (c, v) :: rest)

/-- The whole encoding step, `app.py` lines 104-110: build the one-row
frame, one-hot encode `id`, zero-fill columns of `model_cols` that the
frame lacks, and reorder to `model_cols`. -/
def input_encoded (year_input : Int) (station_id : String)
    (model_cols : List String) : Option Row :=
  selectCols (fillMissing (get_dummies ⟨year_input, station_id⟩) model_cols)
    model_cols

/-- The loaded regression estimator (`pollution_model.pkl`, `app.py`
line 10): an opaque batch-prediction function from a table of feature
rows to a table of numeric output rows. -/
structure Estimator where
  predict : List (List Int) → List (List Rat)

/-- `model.predict(input_encoded)[0]` at `app.py` line 113: run the
estimator on the single encoded row and take the first output row
(`none` models the `IndexError` if the output table is empty). -/
def predicted_pollutants (model : Estimator) (enc : Row) :
    Option (List Rat) :=
  (model.predict [enc.map Prod.snd]).head?

/-- The process-wide state loaded at `app.py` lines 10-11: the estimator
and the training-time column list. -/
structure AppState where
  model : Estimator
  model_cols : List String

/-- What the predict-button handler surfaces: the inline warning of
`app.py` line 101, or the pollutant row of line 113. -/
inductive Outcome where
  | warning : Outcome
  | prediction : List Rat → Outcome
deriving DecidableEq

/-- The successful branch of the handler (`app.py` lines 104-113):
encode, then predict; `none` models an uncaught exception. -/
def run_prediction (model : Estimator) (model_cols : List String)
    (year_input : Int) (station_id : String) : Option Outcome :=
  match input_encoded year_input station_id model_cols with
  | none => none
  | some enc =>
    match predicted_pollutants model enc with
    | none => none
    | some row => some (Outcome.prediction row)

/-- The predict-button handler, `app.py` lines 100-113. `if not
station_id` in Python is true exactly on the empty string, since
`station_id` is a string. The handler never rebinds `model` or
`model_cols`, so the state is returned as loaded. -/
def predict_button (st : AppState) (year_input : Int)
    (station_id : String) : Option Outcome × AppState :=
  if station_id = "" then (some Outcome.warning, st)
  else (run_prediction st.model st.model_cols year_input station_id, st)

/-! ### Lookup lemmas for the row representation -/

theorem lookup_cons (c k : String) (v : Int) (l : Row) :
    List.lookup c ((k, v) :: l) = if c = k then some v else List.lookup c l := by
  cases h : c == k
  · rw [if_neg (by simpa using h)]
    simp [List.lookup, h]
  · rw [if_pos (by simpa using h)]
    simp [List.lookup, h]

theorem lookup_append (l₁ l₂ : Row) (c : String) :
    (l₁ ++ l₂).lookup c =
      match l₁.lookup c with
      | some v => some v
      | none => l₂.lookup c := by
  induction l₁ with
  | nil => simp [List.lookup]
  | cons p l ih =>
    obtain ⟨k, v⟩ := p
    rw [List.cons_append, lookup_cons, lookup_cons]
    by_cases h : c = k
    · simp [h]
    · simp [h, ih]

/-- Lookup after the zero-fill loop: columns of `model_cols` are always
present afterwards (with value 0 if the frame lacked them), and other
columns are untouched. -/
theorem fillMissing_lookup (cols : List String) (row : Row) (c : String) :
    (fillMissing row cols).lookup c =
      if c ∈ cols then some ((row.lookup c).getD 0) else row.lookup c := by
  induction cols generalizing row with
  | nil => simp [fillMissing]
  | cons c' cs ih =>
    have hstep : fillMissing row (c' :: cs) =
        fillMissing
          (if (row.lookup c').isSome then row else row ++ [(c', 0)]) cs := by
      simp [fillMissing]
    rw [hstep, ih]
    by_cases hc' : (row.lookup c').isSome
    · rw [if_pos hc']
      by_cases hmem : c ∈ cs
      · simp [hmem]
      · by_cases hcc : c = c'
        · subst hcc
          obtain ⟨v, hv⟩ := Option.isSome_iff_exists.mp hc'
          simp [hmem, hv]
        · simp [hmem, hcc]
    · rw [if_neg hc']
      have hnone : row.lookup c' = none := by
        cases h : row.lookup c' with
        | none => rfl
        | some v => rw [h] at hc'; simp at hc'
      have happ : ∀ d : String, (row ++ [(c', 0)]).lookup d =
          match row.lookup d with
          | some v => some v
          | none => if d = c' then some (0 : Int) else none := by
        intro d
        rw [lookup_append]
        cases row.lookup d
        · rw [lookup_cons]
          by_cases h : d = c' <;> simp [h, List.lookup]
        · rfl
      by_cases hmem : c ∈ cs
      · rw [if_pos hmem, if_pos (List.mem_cons_of_mem _ hmem), happ]
        cases h : row.lookup c
        · by_cases hcc : c = c' <;> simp [hcc]
        · simp
      · rw [if_neg hmem]
        by_cases hcc : c = c'
        · subst hcc
          rw [if_pos (List.mem_cons_self _ _), happ, hnone]
          simp
        · rw [if_neg (by simp [hcc, hmem]), happ]
          cases h : row.lookup c <;> simp [hcc]

/-- No station indicator column can collide with the `year` column. -/
theorem id_ne_year (t : String) : "id_" ++ t ≠ "year" := by
  obtain ⟨cs⟩ := t
  intro h
  rw [show ("id_" : String) ++ ⟨cs⟩ = ⟨'i' :: 'd' :: '_' :: cs⟩ from rfl,
    show ("year" : String) = ⟨['y', 'e', 'a', 'r']⟩ from rfl] at h
  injection h with h
  simp at h

theorem get_dummies_lookup (y : Int) (s : String) (c : String) :
    (get_dummies ⟨y, s⟩).lookup c =
      if c = "year" then some y
      else if c = "id_" ++ s then some 1 else none := by
  show List.lookup c [("year", y), ("id_" ++ s, 1)] = _
  rw [lookup_cons, lookup_cons]
  by_cases h1 : c = "year"
  · rw [if_pos h1, if_pos h1]
  · rw [if_neg h1, if_neg h1]
    by_cases h2 : c = "id_" ++ s
    · rw [if_pos h2, if_pos h2]
    · rw [if_neg h2, if_neg h2]
      rfl

theorem selectCols_eq_of_forall (row : Row) (cols : List String)
    (g : String → Int) (h : ∀ c ∈ cols, row.lookup c = some (g c)) :
    selectCols row cols = some (cols.map (fun c => (c, g c))) := by
  induction cols with
  | nil => simp [selectCols]
  | cons c cs ih =>
    have hc := h c (List.mem_cons_self _ _)
    have hcs := ih (fun d hd => h d (List.mem_cons_of_mem _ hd))
    simp [selectCols, hc, hcs]

/-- The value that lands in column `c` of the encoded frame. -/
def encodedVal (y : Int) (s : String) (c : String) : Int :=
  if c = "year" then y else if c = "id_" ++ s then 1 else 0

/-- Closed form of the encoding step: it always succeeds, and yields
exactly the columns of `model_cols`, in order, each holding the year,
the station indicator, or zero. -/
theorem input_encoded_eq (y : Int) (s : String) (cols : List String) :
    input_encoded y s cols =
      some (cols.map (fun c => (c, encodedVal y s c))) := by
  unfold input_encoded
  apply selectCols_eq_of_forall
  intro c hc
  rw [fillMissing_lookup, if_pos hc, get_dummies_lookup]
  unfold encodedVal
  by_cases h1 : c = "year"
  · rw [if_pos h1, if_pos h1]
    rfl
  · rw [if_neg h1, if_neg h1]
    by_cases h2 : c = "id_" ++ s
    · rw [if_pos h2, if_pos h2]
      rfl
    · rw [if_neg h2, if_neg h2]
      rfl

/-- Helper: the first components of an encoded frame are the requested
columns themselves. -/
theorem map_fst_encoded (cols : List String) (f : String → Int) :
    (cols.map (fun c => (c, f c))).map Prod.fst = cols := by
  rw [List.map_map, show (Prod.fst ∘ fun c : String => (c, f c)) = id from rfl,
    List.map_id]

/-- Helper: the successful branch never produces the inline warning; the
warning outcome can only come from the empty-station check. -/
theorem run_prediction_ne_warning (m : Estimator) (cols : List String)
    (y : Int) (s : String) :
    run_prediction m cols y s ≠ some Outcome.warning := by
  unfold run_prediction
  rw [input_encoded_eq]
  cases h : predicted_pollutants m (cols.map fun c => (c, encodedVal y s c)) <;>
    simp [h]

/-- A concrete estimator used to instantiate theorems with hypotheses:
returns the six-zero row for every input row. -/
def estW : Estimator :=
  ⟨fun t => t.map (fun _ => [0, 0, 0, 0, 0, 0])⟩

/-- A concrete loaded application state. -/
def stW : AppState :=
  ⟨estW, ["year", "id_1", "id_2"]⟩

/-! ### The claims -/

/-- C1: for every request with a non-empty `station_id` and every
`model_cols` list, the encoding step succeeds and its output has exactly
the length of `model_cols`, carries the names of `model_cols` in their
order, and (when `model_cols` has no duplicate names) each name exactly
once; no other column is present. -/
theorem c1_column_alignment (y : Int) (s : String) (cols : List String)
    (hs : s ≠ "") :
    ∃ out, input_encoded y s cols = some out ∧
      out.length = cols.length ∧
      out.map Prod.fst = cols ∧
      (cols.Nodup → ∀ c ∈ cols, (out.map Prod.fst).count c = 1) := by
  refine ⟨_, input_encoded_eq y s cols, by simp, map_fst_encoded cols _, ?_⟩
  intro hnd c hc
  rw [map_fst_encoded cols _]
  exact List.count_eq_one_of_mem hnd hc

theorem c1_witness :
    ∃ out, input_encoded 2025 "1" ["year", "id_1", "id_2"] = some out ∧
      out.length = (["year", "id_1", "id_2"] : List String).length ∧
      out.map Prod.fst = ["year", "id_1", "id_2"] ∧
      ((["year", "id_1", "id_2"] : List String).Nodup →
        ∀ c ∈ (["year", "id_1", "id_2"] : List String),
          (out.map Prod.fst).count c = 1) :=
  c1_column_alignment 2025 "1" ["year", "id_1", "id_2"] (by decide)

/-- C2: with `model_cols = ["year", "id_1", "id_2"]`, the request
`(year := 2025, station_id := "1")` encodes to the ordered value vector
`[2025, 1, 0]`, and `(year := 2025, station_id := "99")` encodes to
`[2025, 0, 0]`. -/
theorem c2_end_to_end_examples :
    (input_encoded 2025 "1" ["year", "id_1", "id_2"]).map
        (fun out => out.map Prod.snd) = some [2025, 1, 0] ∧
    (input_encoded 2025 "99" ["year", "id_1", "id_2"]).map
        (fun out => out.map Prod.snd) = some [2025, 0, 0] := by
  constructor <;> rfl

/-- C3: for every non-empty `station_id` whose indicator column
`"id_" ++ station_id` is not among `model_cols`, the encoding step does
not fail: it yields the frame in which the `year` column (wherever it
occurs in `model_cols`) holds the year and every other column — in
particular every categorical indicator column — holds 0. -/
theorem c3_unknown_station (y : Int) (s : String) (cols : List String)
    (hs : s ≠ "") (hunknown : "id_" ++ s ∉ cols) :
    ∃ out, input_encoded y s cols = some out ∧
      out = cols.map (fun c => (c, if c = "year" then y else 0)) ∧
      ∀ p ∈ out, p.1 ≠ "year" → p.2 = 0 := by
  have hval : ∀ c ∈ cols, encodedVal y s c = if c = "year" then y else 0 := by
    intro c hc
    unfold encodedVal
    by_cases h1 : c = "year"
    · rw [if_pos h1, if_pos h1]
    · have h2 : c ≠ "id_" ++ s := fun h => hunknown (h ▸ hc)
      rw [if_neg h1, if_neg h1, if_neg h2]
  refine ⟨_, input_encoded_eq y s cols, ?_, ?_⟩
  · exact List.map_congr_left (fun c hc => by rw [hval c hc])
  · intro p hp hp1
    obtain ⟨c, hc, he⟩ := List.mem_map.mp hp
    rw [← he]
    rw [← he] at hp1
    simp only at hp1 ⊢
    rw [hval c hc, if_neg hp1]

theorem c3_witness :
    ∃ out, input_encoded 2025 "99" ["year", "id_1", "id_2"] = some out ∧
      out = (["year", "id_1", "id_2"] : List String).map
        (fun c => (c, if c = "year" then 2025 else 0)) ∧
      ∀ p ∈ out, p.1 ≠ "year" → p.2 = 0 :=
  c3_unknown_station 2025 "99" ["year", "id_1", "id_2"] (by decide) (by decide)

/-- C4: for every non-empty `station_id` whose indicator column
`"id_" ++ station_id` is among `model_cols`, the encoded frame holds 1
in that column and 0 in every other non-`year` column — in particular in
every other categorical indicator column. -/
theorem c4_known_station (y : Int) (s : String) (cols : List String)
    (hs : s ≠ "") (hknown : "id_" ++ s ∈ cols) :
    ∃ out, input_encoded y s cols = some out ∧
      ("id_" ++ s, 1) ∈ out ∧
      ∀ p ∈ out, p.1 ≠ "year" → p.2 = if p.1 = "id_" ++ s then 1 else 0 := by
  refine ⟨_, input_encoded_eq y s cols, ?_, ?_⟩
  · have hmem := List.mem_map_of_mem (fun c => (c, encodedVal y s c)) hknown
    have hv : encodedVal y s ("id_" ++ s) = 1 := by
      unfold encodedVal
      rw [if_neg (id_ne_year s), if_pos rfl]
    simpa [hv] using hmem
  · intro p hp hp1
    obtain ⟨c, hc, he⟩ := List.mem_map.mp hp
    rw [← he]
    rw [← he] at hp1
    simp only at hp1 ⊢
    unfold encodedVal
    rw [if_neg hp1]

theorem c4_witness :
    ∃ out, input_encoded 2025 "1" ["year", "id_1", "id_2"] = some out ∧
      ("id_" ++ "1", 1) ∈ out ∧
      ∀ p ∈ out, p.1 ≠ "year" →
        p.2 = if p.1 = "id_" ++ "1" then 1 else 0 :=
  c4_known_station 2025 "1" ["year", "id_1", "id_2"] (by decide) (by decide)

/-- C5: encoding and prediction are deterministic pure functions: two
runs on the same `(year, station_id)` input with the same loaded
estimator and column list produce the same encoded feature frame and
the same prediction outcome. -/
theorem c5_determinism (y : Int) (s : String) (m : Estimator)
    (cols : List String) (v₁ v₂ : Option Row)
    (r₁ r₂ : Option Outcome × AppState)
    (hv₁ : v₁ = input_encoded y s cols) (hv₂ : v₂ = input_encoded y s cols)
    (hr₁ : r₁ = predict_button ⟨m, cols⟩ y s)
    (hr₂ : r₂ = predict_button ⟨m, cols⟩ y s) :
    v₁ = v₂ ∧ r₁ = r₂ := by
  subst hv₁
  subst hv₂
  subst hr₁
  subst hr₂
  exact ⟨rfl, rfl⟩

theorem c5_witness :
    input_encoded 2025 "1" ["year", "id_1", "id_2"] =
        input_encoded 2025 "1" ["year", "id_1", "id_2"] ∧
      predict_button ⟨estW, ["year", "id_1", "id_2"]⟩ 2025 "1" =
        predict_button ⟨estW, ["year", "id_1", "id_2"]⟩ 2025 "1" :=
  c5_determinism 2025 "1" estW ["year", "id_1", "id_2"] _ _ _ _ rfl rfl rfl rfl

/-- C6: for every encoded feature row and every estimator trained on 6
targets (one output row per input row, each of length 6), the prediction
step returns exactly 6 numeric values — all 6 or none. -/
theorem c6_output_shape (m : Estimator) (enc : Row)
    (hrows : ∀ t, (m.predict t).length = t.length)
    (h6 : ∀ t r, r ∈ m.predict t → r.length = 6) :
    ∃ out, predicted_pollutants m enc = some out ∧ out.length = 6 := by
  unfold predicted_pollutants
  cases hp : m.predict [enc.map Prod.snd] with
  | nil =>
    have hlen := hrows [enc.map Prod.snd]
    rw [hp] at hlen
    simp at hlen
  | cons r rest =>
    exact ⟨r, rfl, h6 _ r (by rw [hp]; exact List.mem_cons_self r rest)⟩

theorem c6_witness :
    ∃ out, predicted_pollutants estW [("year", 2025)] = some out ∧
      out.length = 6 :=
  c6_output_shape estW [("year", 2025)]
    (by intro t; exact List.length_map t _)
    (by
      intro t r hr
      obtain ⟨x, hx, he⟩ := List.mem_map.mp hr
      rw [← he]
      rfl)

/-- C7: the handler surfaces the inline warning exactly when
`station_id` is the empty string (the year, coming from the slider, is
always a number), and in that case neither encoding nor prediction is
attempted: the outcome does not depend on the loaded artifacts at all. -/
theorem c7_invalid_request (st : AppState) (y : Int) (s : String) :
    ((predict_button st y s).1 = some Outcome.warning ↔ s = "") ∧
    (s = "" → ∀ st', (predict_button st y s).1 = (predict_button st' y s).1) := by
  constructor
  · constructor
    · intro h
      by_contra hs
      rw [predict_button, if_neg hs] at h
      exact run_prediction_ne_warning st.model st.model_cols y s h
    · intro h
      rw [predict_button, if_pos h]
  · intro h st'
    rw [predict_button, if_pos h, predict_button, if_pos h]

theorem c7_witness :
    (predict_button stW 2025 "").1 = some Outcome.warning :=
  (c7_invalid_request stW 2025 "").1.mpr rfl

/-- C8: the encoding step passes any integer year straight through into
the `year` column of the output, with no clamping or validation — also
for years outside `[2000, 2100]`. -/
theorem c8_year_passthrough (y : Int) (s : String) (cols : List String)
    (i : Nat) (hi : i < cols.length) (hyear : cols.get ⟨i, hi⟩ = "year") :
    ∃ out, input_encoded y s cols = some out ∧
      ∃ hi' : i < out.length, out.get ⟨i, hi'⟩ = ("year", y) := by
  refine ⟨_, input_encoded_eq y s cols, by simpa using hi, ?_⟩
  rw [List.get_eq_getElem] at hyear ⊢
  rw [List.getElem_map, hyear]
  unfold encodedVal
  rw [if_pos rfl]

theorem c8_witness :
    ∃ out, input_encoded 3000 "7" ["year", "id_1"] = some out ∧
      ∃ hi' : 0 < out.length, out.get ⟨0, hi'⟩ = ("year", 3000) :=
  c8_year_passthrough 3000 "7" ["year", "id_1"] 0 (by decide) (by decide)

/-- C9: an encode-predict call never modifies the loaded artifacts: the
handler returns the process state (estimator and column list) exactly as
it was loaded. -/
theorem c9_artifacts_immutable (st : AppState) (y : Int) (s : String) :
    (predict_button st y s).2 = st := by
  unfold predict_button
  split <;> rfl

/-- C10: only the exactly-empty station identifier is rejected: any
other string — for instance the whitespace-only `" "` — passes the
validity check, so the handler proceeds to the encode-and-predict branch
and does not surface the warning. -/
theorem c10_only_empty_rejected (st : AppState) (y : Int) (s : String)
    (hs : s ≠ "") :
    (predict_button st y s).1 = run_prediction st.model st.model_cols y s ∧
    (predict_button st y s).1 ≠ some Outcome.warning := by
  rw [predict_button, if_neg hs]
  exact ⟨rfl, run_prediction_ne_warning st.model st.model_cols y s⟩

theorem c10_witness :
    (predict_button stW 2025 " ").1 =
        run_prediction stW.model stW.model_cols 2025 " " ∧
      (predict_button stW 2025 " ").1 ≠ some Outcome.warning :=
  c10_only_empty_rejected stW 2025 " " (by decide)

end WaterQuality
